import Mathlib

/-!
Shallow embedding of the combat / turn-lifecycle / deck engine of the
`weavers_of_power` repository (src/engine/combat.py, src/engine/runtime.py,
src/engine/turn_hooks.py, src/engine/runtime_models.py, src/persistence.py,
src/engine/models.py, src/engine/loader.py).

Python `int` is modelled as `Int`; Python dicts that only ever hold the
status shape `{"stacks": n}` are modelled as association lists
`List (String × Int)`; functions that `raise ValueError` are modelled as
returning the untouched state together with `Except.error`, mirroring the
fact that in the source the validation `raise` precedes every field write.
The caller-supplied `random.Random` handle is modelled as a stream of
naturals (`Rng`); `rnd.shuffle` is modelled as a stream-driven selection
permutation (the stdlib shuffle is library code, not repository code; only
the fact that it permutes its input in an rng-determined order is used).
-/

/-- Model of the caller-supplied random generator: a stream of naturals. -/
abbrev Rng := List Nat

/-- Pull the next natural from the generator stream (0 when exhausted). -/
def next_nat (r : Rng) : Nat × Rng :=
  match r with
  | [] => (0, [])
  | n :: rest => (n, rest)

/-- Rng-driven permutation, one selection per fuel unit; with fuel =
length this models `rnd.shuffle` from src/engine/runtime.py's calls. -/
def shuffle_go : Nat → Rng → List String → List String × Rng
  | 0, r, xs => (xs, r)
  | Nat.succ fuel, r, xs =>
    match xs with
    | [] => ([], r)
    | y :: ys =>
      let kr := next_nat r
      let j := kr.1 % (ys.length + 1)
      let picked := (y :: ys).getD j y
      let rest := (y :: ys).eraseIdx j
      let tr := shuffle_go fuel kr.2 rest
      (picked :: tr.1, tr.2)

/-- `rnd.shuffle(xs)` : an rng-chosen permutation of `xs`. -/
def rnd_shuffle (r : Rng) (xs : List String) : List String × Rng :=
  shuffle_go xs.length r xs

/-- DeckState from src/engine/runtime_models.py. -/
structure DeckState where
  draw_pile : List String := []
  discard_pile : List String := []
  hand : List String := []
deriving Repr, DecidableEq

/-- EnemyInstance from src/engine/runtime_models.py.  `statuses` maps a
status name to its `{"stacks": n}` record, kept as an association list.
`last_drawn` is the dynamic attribute written by the app layer and read
via `getattr(e, "last_drawn", [])` in src/persistence.py; its default
mirrors that getattr default.  `rolled_loot` is the opaque loot cache. -/
structure EnemyInstance where
  instance_id : String
  template_id : String
  name : String
  image : Option String
  hp_current : Int
  hp_max : Int
  armor_current : Int
  armor_max : Int
  magic_armor_current : Int
  magic_armor_max : Int
  guard_base : Int := 0
  guard_current : Int := 0
  draws_base : Int := 1
  movement : Int := 0
  rolled_loot : List (String × Int) := []
  loot_rolled : Bool := false
  deck_state : DeckState := {}
  statuses : List (String × Int) := []
  last_drawn : List String := []
deriving Repr, DecidableEq

/-- `key in statuses` (Python dict membership). -/
def has_status (sts : List (String × Int)) (key : String) : Bool :=
  sts.any (fun p => p.1 == key)

/-- `_get_stacks` from src/engine/turn_hooks.py: `statuses.get(key)`,
returning the stored stack count, 0 when absent. -/
def get_stacks (sts : List (String × Int)) (key : String) : Int :=
  match sts.find? (fun p => p.1 == key) with
  | some p => p.2
  | none => 0

/-- `statuses.pop(key, None)` : remove the entry for `key`. -/
def pop_status (sts : List (String × Int)) (key : String) : List (String × Int) :=
  sts.filter (fun p => p.1 != key)

/-- `statuses[key] = {"stacks": v}` : overwrite in place, or append. -/
def set_status (sts : List (String × Int)) (key : String) (v : Int) :
    List (String × Int) :=
  if sts.any (fun p => p.1 == key) then
    sts.map (fun p => if p.1 == key then (key, v) else p)
  else
    sts ++ [(key, v)]

/-- CombatLog from src/engine/combat.py. -/
structure CombatLog where
  instance_id : String
  action : String
  hp_before : Int
  hp_after : Int
  guard_before : Int
  guard_after : Int
  armor_before : Int
  armor_after : Int
  magic_armor_before : Int
  magic_armor_after : Int
  input_damage : Int := 0
  ignored_regular : Int := 0
  ignored_magic : Int := 0
  guarded_total : Int := 0
  damage_to_hp : Int := 0
  applied_statuses : List String := []
deriving Repr, DecidableEq

/-- Step 1 of apply_attack (src/engine/combat.py): sunder destroys one
point of regular armor before anything else, never going below 0. -/
def armor_after_sunder (e : EnemyInstance) (mods : List String) : Int :=
  if "sunder" ∈ mods ∧ 0 < e.armor_current then e.armor_current - 1
  else e.armor_current

/-- Step 2 of apply_attack: the ignored regular (guard+armor) amount —
all of it under pierce, exactly 1 under stab, else 0. -/
def ignored_regular_of (e : EnemyInstance) (mods : List String) : Int :=
  if "pierce" ∈ mods then e.guard_current + armor_after_sunder e mods
  else if "stab" ∈ mods then 1
  else 0

/-- Step 2 of apply_attack: the ignored magic-armor amount. -/
def ignored_magic_of (e : EnemyInstance) (mods : List String) : Int :=
  if "magic_pierce" ∈ mods then e.magic_armor_current else 0

/-- The post-ignore guard value: ignore allocation consumes guard first. -/
def effective_guard (e : EnemyInstance) (mods : List String) : Int :=
  e.guard_current - min e.guard_current (ignored_regular_of e mods)

/-- The post-ignore armor value: armor takes what the guard allocation of
the ignore left over. -/
def effective_armor (e : EnemyInstance) (mods : List String) : Int :=
  let a := armor_after_sunder e mods
  a - min a (ignored_regular_of e mods - min e.guard_current (ignored_regular_of e mods))

/-- The post-ignore magic armor value. -/
def effective_magic (e : EnemyInstance) (mods : List String) : Int :=
  max 0 (e.magic_armor_current - ignored_magic_of e mods)

/-- Step 3 of apply_attack: `damage_after_fixed`, the remainder after
the post-ignore flat reductions. -/
def damage_after_fixed_of (e : EnemyInstance) (d : Int) (mods : List String) : Int :=
  max 0 (d - (effective_armor e mods + effective_magic e mods))

/-- Step 3 of apply_attack: `guard_used`, the guard pool consumed. -/
def guard_used_of (e : EnemyInstance) (d : Int) (mods : List String) : Int :=
  min (effective_guard e mods) (damage_after_fixed_of e d mods)

/-- Step 3 of apply_attack: `dmg_to_hp`, what gets past everything. -/
def damage_to_hp_of (e : EnemyInstance) (d : Int) (mods : List String) : Int :=
  damage_after_fixed_of e d mods - guard_used_of e d mods

/-- The CombatLog apply_attack returns on a successful call. -/
def attack_log (enemy : EnemyInstance) (damage : Int) (mods : List String) : CombatLog :=
  { instance_id := enemy.instance_id
    action := "attack"
    hp_before := enemy.hp_current
    hp_after := max 0 (enemy.hp_current - damage_to_hp_of enemy damage mods)
    guard_before := enemy.guard_current
    guard_after := max 0 (enemy.guard_current - guard_used_of enemy damage mods)
    armor_before := enemy.armor_current
    armor_after := armor_after_sunder enemy mods
    magic_armor_before := enemy.magic_armor_current
    magic_armor_after := enemy.magic_armor_current
    input_damage := damage
    ignored_regular := ignored_regular_of enemy mods
    ignored_magic := ignored_magic_of enemy mods
    guarded_total := damage - damage_to_hp_of enemy damage mods
    damage_to_hp := damage_to_hp_of enemy damage mods
    applied_statuses := if "paralyse" ∈ mods then ["paralyzed"] else [] }

/-- apply_attack from src/engine/combat.py.  Returns the combatant state
after the call and the log; `damage < 0` raises (`Except.error`) before
any field is written, so the untouched input state is returned. -/
def apply_attack (enemy : EnemyInstance) (damage : Int) (mods : List String) :
    EnemyInstance × Except String CombatLog :=
  if damage < 0 then (enemy, Except.error "damage must be >= 0")
  else
    ({ enemy with
        hp_current := max 0 (enemy.hp_current - damage_to_hp_of enemy damage mods)
        guard_current := max 0 (enemy.guard_current - guard_used_of enemy damage mods)
        armor_current := armor_after_sunder enemy mods
        statuses :=
          if "paralyse" ∈ mods then set_status enemy.statuses "paralyzed" 1
          else enemy.statuses },
     Except.ok (attack_log enemy damage mods))

/-- apply_heal from src/engine/combat.py: clamp hp/armor/magic armor to
their max on increment; guard is clamped only to the 9999 sentinel. -/
def apply_heal (enemy : EnemyInstance) (hp armor magic_armor guard : Int) :
    EnemyInstance × Except String CombatLog :=
  if hp < 0 ∨ armor < 0 ∨ magic_armor < 0 ∨ guard < 0 then
    (enemy, Except.error "heal values must be >= 0")
  else
    let hp_a := min enemy.hp_max (enemy.hp_current + hp)
    let armor_a := min enemy.armor_max (enemy.armor_current + armor)
    let magic_a := min enemy.magic_armor_max (enemy.magic_armor_current + magic_armor)
    let guard_a := min 9999 (enemy.guard_current + guard)
    ({ enemy with
        hp_current := hp_a
        armor_current := armor_a
        magic_armor_current := magic_a
        guard_current := guard_a },
     Except.ok
       { instance_id := enemy.instance_id
         action := "heal"
         hp_before := enemy.hp_current
         hp_after := hp_a
         guard_before := enemy.guard_current
         guard_after := guard_a
         armor_before := enemy.armor_current
         armor_after := armor_a
         magic_armor_before := enemy.magic_armor_current
         magic_armor_after := magic_a })

/-- TurnHookLog from src/engine/turn_hooks.py. -/
structure TurnHookLog where
  instance_id : String
  phase : String
  hp_before : Int
  hp_after : Int
  guard_before : Int
  guard_after : Int
  removed_statuses : List String := []
  dot_damage : Int := 0
deriving Repr, DecidableEq

/-- on_turn_start from src/engine/turn_hooks.py: reset guard to
guard_base, then apply burn+poison DOT straight to hp (floored at 0). -/
def on_turn_start (enemy : EnemyInstance) : EnemyInstance × TurnHookLog :=
  let burn := get_stacks enemy.statuses "burn"
  let poison := get_stacks enemy.statuses "poison"
  let dot := max 0 burn + max 0 poison
  let hp_a := if 0 < dot then max 0 (enemy.hp_current - dot) else enemy.hp_current
  ({ enemy with guard_current := enemy.guard_base, hp_current := hp_a },
   { instance_id := enemy.instance_id
     phase := "start"
     hp_before := enemy.hp_current
     hp_after := hp_a
     guard_before := enemy.guard_current
     guard_after := enemy.guard_base
     dot_damage := dot })

/-- on_turn_end from src/engine/turn_hooks.py: pop the transient
`paralyzed` and `slowed` statuses (in that order). -/
def on_turn_end (enemy : EnemyInstance) : EnemyInstance × TurnHookLog :=
  let removed :=
    (if has_status enemy.statuses "paralyzed" then ["paralyzed"] else []) ++
    (if has_status enemy.statuses "slowed" then ["slowed"] else [])
  let sts := pop_status (pop_status enemy.statuses "paralyzed") "slowed"
  ({ enemy with statuses := sts },
   { instance_id := enemy.instance_id
     phase := "end"
     hp_before := enemy.hp_current
     hp_after := enemy.hp_current
     guard_before := enemy.guard_current
     guard_after := enemy.guard_current
     removed_statuses := removed })

/-- DrawResult from src/engine/runtime.py. -/
structure DrawResult where
  instance_id : String
  requested : Int
  drawn : List String
  reshuffled : Bool
  draw_pile_after : Nat
  discard_pile_after : Nat
  hand_after : Nat
deriving Repr, DecidableEq

/-- `_reshuffle_if_needed` from src/engine/runtime.py: when the draw pile
is empty and the discard pile is not, the discard pile becomes the new
draw pile in shuffled order and the discard pile is cleared. -/
def reshuffle_if_needed (ds : DeckState) (rnd : Rng) : DeckState × Rng × Bool :=
  if ds.draw_pile ≠ [] then (ds, rnd, false)
  else if ds.discard_pile = [] then (ds, rnd, false)
  else
    let sr := rnd_shuffle rnd ds.discard_pile
    ({ draw_pile := sr.1, discard_pile := [], hand := ds.hand }, sr.2, true)

/-- The per-card loop body of draw_cards: re-check reshuffle before every
pull, stop early when nothing is left anywhere, else pop the front of the
draw pile into the hand. -/
def draw_loop : Nat → DeckState → Rng → List String → Bool →
    DeckState × Rng × List String × Bool
  | 0, ds, rnd, drawn, resh => (ds, rnd, drawn, resh)
  | Nat.succ n, ds, rnd, drawn, resh =>
    let rr := reshuffle_if_needed ds rnd
    let ds1 := rr.1
    let resh1 := rr.2.2 || resh
    match ds1.draw_pile with
    | [] => (ds1, rr.2.1, drawn, resh1)
    | card :: rest =>
      draw_loop n { ds1 with draw_pile := rest, hand := ds1.hand ++ [card] }
        rr.2.1 (drawn ++ [card]) resh1

/-- draw_cards from src/engine/runtime.py.  `n < 0` raises before any
mutation; otherwise up to `n` cards move from the draw pile to the hand,
reshuffling the discard pile in when the draw pile runs empty. -/
def draw_cards (enemy : EnemyInstance) (n : Int) (rnd : Rng) :
    EnemyInstance × Rng × Except String DrawResult :=
  if n < 0 then (enemy, rnd, Except.error "n must be >= 0")
  else
    let r := draw_loop n.toNat enemy.deck_state rnd [] false
    ({ enemy with deck_state := r.1 }, r.2.1,
     Except.ok
       { instance_id := enemy.instance_id
         requested := n
         drawn := r.2.2.1
         reshuffled := r.2.2.2
         draw_pile_after := r.1.draw_pile.length
         discard_pile_after := r.1.discard_pile.length
         hand_after := r.1.hand.length })

/-- end_turn from src/engine/runtime.py: move the whole hand onto the
discard pile, then run on_turn_end (whose log the source discards). -/
def end_turn (enemy : EnemyInstance) : EnemyInstance :=
  let ds := enemy.deck_state
  let ds1 :=
    if ds.hand.isEmpty then ds
    else { ds with discard_pile := ds.discard_pile ++ ds.hand, hand := [] }
  (on_turn_end { enemy with deck_state := ds1 }).1

/-- The empty DrawResult a downed combatant gets from enemy_turn. -/
def empty_draw_result (e : EnemyInstance) : DrawResult :=
  { instance_id := e.instance_id
    requested := 0
    drawn := []
    reshuffled := false
    draw_pile_after := e.deck_state.draw_pile.length
    discard_pile_after := e.deck_state.discard_pile.length
    hand_after := e.deck_state.hand.length }

/-- enemy_turn from src/engine/runtime.py: on_turn_start, then either the
dead short-circuit (hp ≤ 0 draws nothing) or a draw of
draws_base − 1·paralyzed, floored at 0. -/
def enemy_turn (enemy : EnemyInstance) (rnd : Rng) :
    EnemyInstance × Rng × Except String DrawResult :=
  let e1 := (on_turn_start enemy).1
  if e1.hp_current ≤ 0 then (e1, rnd, Except.ok (empty_draw_result e1))
  else
    let draws0 := e1.draws_base - (if has_status e1.statuses "paralyzed" then 1 else 0)
    let draws := if draws0 < 0 then 0 else draws0
    draw_cards e1 draws rnd

/-- The multiset of card ids across the three deck zones. -/
def zones_ms (ds : DeckState) : Multiset String :=
  (ds.draw_pile : Multiset String) + (ds.discard_pile : Multiset String) +
    (ds.hand : Multiset String)

/-- The persisted-state record per combatant, as produced by
enemy_to_dict in src/persistence.py (`asdict` of the dataclass plus the
`last_drawn` / `loot_rolled` / `rolled_loot` setdefault extras). -/
structure SavedEnemy where
  instance_id : String
  template_id : String
  name : String
  image : Option String
  hp_current : Int
  hp_max : Int
  armor_current : Int
  armor_max : Int
  magic_armor_current : Int
  magic_armor_max : Int
  guard_base : Int
  guard_current : Int
  draws_base : Int
  movement : Int
  rolled_loot : List (String × Int)
  loot_rolled : Bool
  deck_state : DeckState
  statuses : List (String × Int)
  last_drawn : List String
deriving Repr, DecidableEq

/-- enemy_to_dict from src/persistence.py: `asdict` serializes every
declared dataclass field; `setdefault` adds the dynamic `last_drawn`
attribute (default `[]`). -/
def enemy_to_dict (e : EnemyInstance) : SavedEnemy :=
  { instance_id := e.instance_id
    template_id := e.template_id
    name := e.name
    image := e.image
    hp_current := e.hp_current
    hp_max := e.hp_max
    armor_current := e.armor_current
    armor_max := e.armor_max
    magic_armor_current := e.magic_armor_current
    magic_armor_max := e.magic_armor_max
    guard_base := e.guard_base
    guard_current := e.guard_current
    draws_base := e.draws_base
    movement := e.movement
    rolled_loot := e.rolled_loot
    loot_rolled := e.loot_rolled
    deck_state := e.deck_state
    statuses := e.statuses
    last_drawn := e.last_drawn }

/-- enemy_from_dict from src/persistence.py: rebuild the DeckState from
the record's three zone lists, copy every scalar field, then restore the
runtime extras. -/
def enemy_from_dict (d : SavedEnemy) : EnemyInstance :=
  { instance_id := d.instance_id
    template_id := d.template_id
    name := d.name
    image := d.image
    hp_current := d.hp_current
    hp_max := d.hp_max
    armor_current := d.armor_current
    armor_max := d.armor_max
    magic_armor_current := d.magic_armor_current
    magic_armor_max := d.magic_armor_max
    guard_base := d.guard_base
    guard_current := d.guard_current
    draws_base := d.draws_base
    movement := d.movement
    rolled_loot := d.rolled_loot
    loot_rolled := d.loot_rolled
    deck_state :=
      { draw_pile := d.deck_state.draw_pile
        discard_pile := d.deck_state.discard_pile
        hand := d.deck_state.hand }
    statuses := d.statuses
    last_drawn := d.last_drawn }

/-- The field names declared by the frozen `EnemyTemplate` dataclass in
src/engine/models.py (lines 148-163). -/
def enemy_template_fields : List String :=
  ["id", "name", "image", "hp", "armor", "magicArmor",
   "draws", "movement", "coreDeck", "specials", "loot"]

/-- The keyword arguments that load_enemies in src/engine/loader.py
passes to the `EnemyTemplate` constructor.  A Python dataclass rejects a
keyword argument outside its declared fields with a TypeError. -/
def load_enemies_template_kwargs : List String :=
  ["id", "name", "image", "hp", "baseGuard", "armor", "magicArmor",
   "draws", "movement", "coreDeck", "specials", "loot"]

/-- The attributes of its `template` argument that spawn_enemy in
src/engine/runtime.py reads.  Reading an attribute a frozen dataclass
does not declare raises AttributeError. -/
def spawn_enemy_template_reads : List String :=
  ["coreDeck", "id", "hp", "armor", "magicArmor", "baseGuard",
   "name", "image", "draws", "movement", "specials"]

/-- Well-formedness of a combatant's defensive vitals (the §3 data-model
invariants). -/
abbrev wf_combatant (e : EnemyInstance) : Prop :=
  0 ≤ e.hp_current ∧ e.hp_current ≤ e.hp_max ∧
  0 ≤ e.armor_current ∧ e.armor_current ≤ e.armor_max ∧
  0 ≤ e.magic_armor_current ∧ e.magic_armor_current ≤ e.magic_armor_max ∧
  0 ≤ e.guard_current

/-- A combat-core mutation: one apply_attack or apply_heal call. -/
inductive CoreOp where
  | attack (damage : Int) (mods : List String)
  | heal (hp armor magic_armor guard : Int)
deriving Repr, DecidableEq

/-- Run one core operation, keeping the (unchanged) state on a rejected
call. -/
def run_op (e : EnemyInstance) : CoreOp → EnemyInstance
  | CoreOp.attack d mods => (apply_attack e d mods).1
  | CoreOp.heal h a m g => (apply_heal e h a m g).1

/-- Run a finite sequence of core operations. -/
def run_ops (e : EnemyInstance) (ops : List CoreOp) : EnemyInstance :=
  ops.foldl run_op e

/-- An operation whose arguments pass the InvalidArgument validation
(non-negative amounts), i.e. a call that succeeds. -/
def valid_opb : CoreOp → Bool
  | CoreOp.attack d _ => 0 ≤ d
  | CoreOp.heal h a m g => 0 ≤ h && 0 ≤ a && 0 ≤ m && 0 ≤ g

/-- A baseline combatant used for the concrete spec examples. -/
def base_enemy : EnemyInstance :=
  { instance_id := "e1"
    template_id := "t"
    name := "E"
    image := none
    hp_current := 30
    hp_max := 30
    armor_current := 0
    armor_max := 0
    magic_armor_current := 0
    magic_armor_max := 0
    guard_base := 3
    guard_current := 0
    draws_base := 1
    movement := 2 }

/-- The spec's `guard=3, armor=2, magic_armor=0` example combatant. -/
def example_g3a2 : EnemyInstance :=
  { base_enemy with guard_current := 3, armor_current := 2, armor_max := 2 }

/-- The counterexample combatant for the pierce+sunder interaction:
armor 2, guard 0. -/
def example_a2 : EnemyInstance :=
  { base_enemy with armor_current := 2, armor_max := 2 }

/-- A downed combatant (hp 0) with a populated deck, for the C6 witness. -/
def dead_enemy : EnemyInstance :=
  { base_enemy with
      hp_current := 0
      deck_state := { draw_pile := ["a"], discard_pile := ["b"], hand := ["c"] } }

/-- An enemy with a short draw pile and a discard pile, so that a 3-card
draw forces a reshuffle, for the C4 witness. -/
def reshuffle_enemy : EnemyInstance :=
  { base_enemy with
      deck_state := { draw_pile := ["a"], discard_pile := ["b", "c"], hand := ["d"] } }

/-! ## Helper lemmas -/

theorem attack_ok_eq (e : EnemyInstance) (d : Int) (mods : List String) (hd : 0 ≤ d) :
    apply_attack e d mods =
      ({ e with
          hp_current := max 0 (e.hp_current - damage_to_hp_of e d mods)
          guard_current := max 0 (e.guard_current - guard_used_of e d mods)
          armor_current := armor_after_sunder e mods
          statuses :=
            if "paralyse" ∈ mods then set_status e.statuses "paralyzed" 1
            else e.statuses },
       Except.ok (attack_log e d mods)) := by
  rw [apply_attack, if_neg (not_lt.mpr hd)]

theorem damage_to_hp_nonneg (e : EnemyInstance) (d : Int) (mods : List String) :
    0 ≤ damage_to_hp_of e d mods := by
  unfold damage_to_hp_of guard_used_of damage_after_fixed_of
  omega

theorem armor_after_sunder_bounds (e : EnemyInstance) (mods : List String)
    (h0 : 0 ≤ e.armor_current) (h1 : e.armor_current ≤ e.armor_max) :
    0 ≤ armor_after_sunder e mods ∧ armor_after_sunder e mods ≤ e.armor_max := by
  unfold armor_after_sunder
  split <;> omega

theorem wf_attack (e : EnemyInstance) (d : Int) (mods : List String)
    (h : wf_combatant e) : wf_combatant (apply_attack e d mods).1 := by
  obtain ⟨h1, h2, h3, h4, h5, h6, h7⟩ := h
  by_cases hd : d < 0
  · rw [apply_attack, if_pos hd]
    exact ⟨h1, h2, h3, h4, h5, h6, h7⟩
  · rw [attack_ok_eq e d mods (not_lt.mp hd)]
    have hdm := damage_to_hp_nonneg e d mods
    have has := armor_after_sunder_bounds e mods h3 h4
    refine ⟨?_, ?_, has.1, has.2, h5, h6, ?_⟩ <;> (dsimp only; omega)

theorem wf_heal (e : EnemyInstance) (hp armor magic_armor guard : Int)
    (h : wf_combatant e) : wf_combatant (apply_heal e hp armor magic_armor guard).1 := by
  obtain ⟨h1, h2, h3, h4, h5, h6, h7⟩ := h
  unfold apply_heal
  split
  · exact ⟨h1, h2, h3, h4, h5, h6, h7⟩
  · rename_i hneg
    push_neg at hneg
    refine ⟨?_, ?_, ?_, ?_, ?_, ?_, ?_⟩ <;> (dsimp only; omega)

theorem run_ops_wf (e : EnemyInstance) (ops : List CoreOp)
    (h : wf_combatant e) : wf_combatant (run_ops e ops) := by
  induction ops generalizing e with
  | nil => exact h
  | cons op rest ih =>
    cases op with
    | attack d mods => exact ih _ (wf_attack e d mods h)
    | heal hp a m g => exact ih _ (wf_heal e hp a m g h)

theorem perm_getD_cons_eraseIdx :
    ∀ (xs : List String) (j : Nat), j < xs.length →
      ∀ dflt, List.Perm (xs.getD j dflt :: xs.eraseIdx j) xs := by
  intro xs
  induction xs with
  | nil => intro j hj; simp at hj
  | cons y ys ih =>
    intro j hj dflt
    cases j with
    | zero => simp
    | succ j =>
      simp only [List.getD_cons_succ, List.eraseIdx_cons_succ]
      have hj' : j < ys.length := by simpa using hj
      exact (List.Perm.swap y (ys.getD j dflt) (ys.eraseIdx j)).trans
        ((ih j hj' dflt).cons y)

theorem shuffle_go_perm :
    ∀ (fuel : Nat) (r : Rng) (xs : List String),
      List.Perm (shuffle_go fuel r xs).1 xs := by
  intro fuel
  induction fuel with
  | zero => intro r xs; simp [shuffle_go]
  | succ n ih =>
    intro r xs
    cases xs with
    | nil => simp [shuffle_go]
    | cons y ys =>
      simp only [shuffle_go]
      have hj : (next_nat r).1 % (ys.length + 1) < (y :: ys).length := by
        simp [Nat.mod_lt]
      exact ((ih _ _).cons _).trans
        (perm_getD_cons_eraseIdx (y :: ys) _ hj y)

theorem rnd_shuffle_ms (r : Rng) (xs : List String) :
    ((rnd_shuffle r xs).1 : Multiset String) = (xs : Multiset String) := by
  exact Multiset.coe_eq_coe.mpr (shuffle_go_perm xs.length r xs)

theorem zones_reshuffle (ds : DeckState) (rnd : Rng) :
    zones_ms (reshuffle_if_needed ds rnd).1 = zones_ms ds := by
  unfold reshuffle_if_needed
  split
  · rfl
  · split
    · rfl
    · rename_i hdraw hdisc
      push_neg at hdraw
      simp [zones_ms, hdraw, rnd_shuffle_ms]

theorem zones_pop (ds : DeckState) (card : String) (rest : List String)
    (h : ds.draw_pile = card :: rest) :
    zones_ms { ds with draw_pile := rest, hand := ds.hand ++ [card] } = zones_ms ds := by
  simp only [zones_ms, h, ← Multiset.coe_add]
  exact Multiset.coe_eq_coe.mpr
    (by simpa [List.append_assoc] using
      List.perm_append_singleton card (rest ++ (ds.discard_pile ++ ds.hand)))

theorem zones_draw_loop :
    ∀ (n : Nat) (ds : DeckState) (rnd : Rng) (drawn : List String) (resh : Bool),
      zones_ms (draw_loop n ds rnd drawn resh).1 = zones_ms ds := by
  intro n
  induction n with
  | zero => intro ds rnd drawn resh; rfl
  | succ m ih =>
    intro ds rnd drawn resh
    rw [draw_loop]
    have hz := zones_reshuffle ds rnd
    rcases hpile : (reshuffle_if_needed ds rnd).1.draw_pile with _ | ⟨card, rest⟩
    · simpa [hpile] using hz
    · simp only [hpile]
      rw [ih, ← hz]
      exact zones_pop (reshuffle_if_needed ds rnd).1 card rest hpile

theorem zones_draw_cards (e : EnemyInstance) (n : Int) (rnd : Rng) (hn : 0 ≤ n) :
    zones_ms (draw_cards e n rnd).1.deck_state = zones_ms e.deck_state := by
  rw [draw_cards, if_neg (not_lt.mpr hn)]
  exact zones_draw_loop n.toNat e.deck_state rnd [] false

theorem end_turn_deck (e : EnemyInstance) :
    (end_turn e).deck_state =
      (if e.deck_state.hand.isEmpty then e.deck_state
       else { e.deck_state with
                discard_pile := e.deck_state.discard_pile ++ e.deck_state.hand
                hand := [] }) := by
  by_cases hh : e.deck_state.hand.isEmpty <;>
    simp [end_turn, on_turn_end, hh]

theorem zones_end_turn (e : EnemyInstance) :
    zones_ms (end_turn e).deck_state = zones_ms e.deck_state := by
  rw [end_turn_deck]
  by_cases hh : e.deck_state.hand.isEmpty
  · simp [hh]
  · simp only [hh, if_false, Bool.false_eq_true]
    simp only [zones_ms, ← Multiset.coe_add]
    exact Multiset.coe_eq_coe.mpr (by simp [List.append_assoc])

theorem find?_pop_ne (sts : List (String × Int)) (k k2 : String) (h : k2 ≠ k) :
    (pop_status sts k).find? (fun p => p.1 == k2) =
      sts.find? (fun p => p.1 == k2) := by
  induction sts with
  | nil => rfl
  | cons p rest ih =>
    unfold pop_status at ih ⊢
    by_cases hk : p.1 = k
    · have hne : (p.1 == k2) = false := by
        simp only [beq_eq_false_iff_ne, ne_eq]
        intro he
        exact h (he ▸ hk)
      have hkk : (k == k2) = false := beq_eq_false_iff_ne.mpr (Ne.symm h)
      simp [List.filter_cons, hk, List.find?_cons, hne, ih, hkk]
    · by_cases hm : (p.1 == k2) = true
      · simp [List.filter_cons, hk, List.find?_cons, hm]
      · simp only [Bool.not_eq_true] at hm
        simp [List.filter_cons, hk, List.find?_cons, hm, ih]

theorem get_stacks_pop_ne (sts : List (String × Int)) (k k2 : String) (h : k2 ≠ k) :
    get_stacks (pop_status sts k) k2 = get_stacks sts k2 := by
  unfold get_stacks
  rw [find?_pop_ne sts k k2 h]

theorem has_status_pop_self (sts : List (String × Int)) (k : String) :
    has_status (pop_status sts k) k = false := by
  unfold has_status pop_status
  simp only [List.any_eq_false]
  intro p hp
  rcases List.mem_filter.mp hp with ⟨_, hpf⟩
  simpa using hpf

theorem has_status_pop_ne (sts : List (String × Int)) (k k2 : String) (h : k2 ≠ k) :
    has_status (pop_status sts k) k2 = has_status sts k2 := by
  unfold has_status pop_status
  rcases hh : sts.any (fun p => p.1 == k2) with _ | _
  · simp only [List.any_eq_false] at hh ⊢
    intro p hp
    exact hh p (List.mem_filter.mp hp).1
  · simp only [List.any_eq_true] at hh ⊢
    rcases hh with ⟨p, hp, hpk⟩
    refine ⟨p, List.mem_filter.mpr ⟨hp, ?_⟩, hpk⟩
    have : p.1 = k2 := by simpa using hpk
    simp [this, h]

/-! ## Claim theorems -/

/-- C1: for every combatant state and every damage ≥ 0, apply_attack
computes `damage_after_fixed = max(0, damage − (effective_armor +
effective_magic_armor))` from the post-ignore values, consumes guard as a
pool (`guard_used = min(effective_guard, damage_after_fixed)`,
`damage_to_hp = damage_after_fixed − guard_used`), sets hp_current to
`max(0, hp_current − damage_to_hp)`, reduces guard_current by guard_used
(never below 0) and leaves magic_armor_current unchanged; on the spec's
guard=3/armor=2/magic=0 example at damage=10 the returned log has
guarded_total=5 and damage_to_hp=5. -/
theorem spec_C1 (e : EnemyInstance) (d : Int) (mods : List String) (hd : 0 ≤ d) :
    (∃ log : CombatLog,
      (apply_attack e d mods).2 = Except.ok log ∧
      log.damage_to_hp =
        max 0 (d - (effective_armor e mods + effective_magic e mods)) -
          min (effective_guard e mods)
            (max 0 (d - (effective_armor e mods + effective_magic e mods))) ∧
      log.guarded_total = d - log.damage_to_hp ∧
      (apply_attack e d mods).1.hp_current = max 0 (e.hp_current - log.damage_to_hp) ∧
      (apply_attack e d mods).1.guard_current =
        max 0 (e.guard_current -
          min (effective_guard e mods)
            (max 0 (d - (effective_armor e mods + effective_magic e mods)))) ∧
      (apply_attack e d mods).1.magic_armor_current = e.magic_armor_current) ∧
    (∃ log : CombatLog,
      (apply_attack example_g3a2 10 []).2 = Except.ok log ∧
      log.guarded_total = 5 ∧ log.damage_to_hp = 5) := by
  constructor
  · refine ⟨attack_log e d mods, ?_, rfl, rfl, ?_, ?_, ?_⟩ <;>
      rw [attack_ok_eq e d mods hd] <;> rfl
  · exact ⟨attack_log example_g3a2 10 [], rfl, by decide, by decide⟩

/-- C1 witness: the general part of spec_C1 instantiated on the spec's
concrete example (damage 10 against guard 3, armor 2, magic armor 0). -/
theorem spec_C1_witness :
    (0 : Int) ≤ 10 ∧
    (∃ log : CombatLog,
      (apply_attack example_g3a2 10 []).2 = Except.ok log ∧
      log.damage_to_hp =
        max 0 (10 - (effective_armor example_g3a2 [] + effective_magic example_g3a2 [])) -
          min (effective_guard example_g3a2 [])
            (max 0 (10 - (effective_armor example_g3a2 [] + effective_magic example_g3a2 []))) ∧
      log.guarded_total = 10 - log.damage_to_hp ∧
      (apply_attack example_g3a2 10 []).1.hp_current =
        max 0 (example_g3a2.hp_current - log.damage_to_hp) ∧
      (apply_attack example_g3a2 10 []).1.guard_current =
        max 0 (example_g3a2.guard_current -
          min (effective_guard example_g3a2 [])
            (max 0 (10 - (effective_armor example_g3a2 [] + effective_magic example_g3a2 [])))) ∧
      (apply_attack example_g3a2 10 []).1.magic_armor_current =
        example_g3a2.magic_armor_current) :=
  ⟨by decide, (spec_C1 example_g3a2 10 [] (by decide)).1⟩

/-- C5: the claim's spawn behaviour cannot execute — load_enemies passes
a `baseGuard` keyword and spawn_enemy reads a `baseGuard` attribute, but
the frozen EnemyTemplate dataclass of src/engine/models.py declares no
such field, so construction raises TypeError and the attribute read
raises AttributeError. -/
theorem spec_C5 :
    "baseGuard" ∈ load_enemies_template_kwargs ∧
    "baseGuard" ∈ spawn_enemy_template_reads ∧
    "baseGuard" ∉ enemy_template_fields := by decide

/-- C8: negative damage, any negative heal amount and a negative draw
count each fail with the InvalidArgument error, and the returned
combatant state (and rng) is exactly the input — the validation precedes
every field write. -/
theorem spec_C8 :
    (∀ (e : EnemyInstance) (d : Int) (mods : List String), d < 0 →
      apply_attack e d mods = (e, Except.error "damage must be >= 0")) ∧
    (∀ (e : EnemyInstance) (hp armor magic_armor guard : Int),
      hp < 0 ∨ armor < 0 ∨ magic_armor < 0 ∨ guard < 0 →
      apply_heal e hp armor magic_armor guard =
        (e, Except.error "heal values must be >= 0")) ∧
    (∀ (e : EnemyInstance) (n : Int) (rnd : Rng), n < 0 →
      draw_cards e n rnd = (e, rnd, Except.error "n must be >= 0")) := by
  refine ⟨?_, ?_, ?_⟩
  · intro e d mods hd
    rw [apply_attack, if_pos hd]
  · intro e hp a m g hneg
    rw [apply_heal, if_pos hneg]
  · intro e n rnd hn
    rw [draw_cards, if_pos hn]

/-- C8 witness: each rejection at a concrete negative argument. -/
theorem spec_C8_witness :
    apply_attack base_enemy (-1) [] = (base_enemy, Except.error "damage must be >= 0") ∧
    apply_heal base_enemy (-2) 0 0 0 = (base_enemy, Except.error "heal values must be >= 0") ∧
    draw_cards base_enemy (-3) [] = (base_enemy, [], Except.error "n must be >= 0") :=
  ⟨spec_C8.1 base_enemy (-1) [] (by decide),
   spec_C8.2.1 base_enemy (-2) 0 0 0 (Or.inl (by decide)),
   spec_C8.2.2 base_enemy (-3) [] (by decide)⟩

/-- C9: end_turn moves the whole hand onto the discard pile and empties
the hand, removes exactly the paralyzed and slowed statuses, and leaves
hp, guard, armor, magic armor, the draw pile and the burn/poison stacks
unchanged. -/
theorem spec_C9 (e : EnemyInstance) :
    (end_turn e).deck_state.hand = [] ∧
    (end_turn e).deck_state.discard_pile =
      e.deck_state.discard_pile ++ e.deck_state.hand ∧
    (end_turn e).deck_state.draw_pile = e.deck_state.draw_pile ∧
    (end_turn e).hp_current = e.hp_current ∧
    (end_turn e).guard_current = e.guard_current ∧
    (end_turn e).armor_current = e.armor_current ∧
    (end_turn e).magic_armor_current = e.magic_armor_current ∧
    (end_turn e).statuses = pop_status (pop_status e.statuses "paralyzed") "slowed" ∧
    has_status (end_turn e).statuses "paralyzed" = false ∧
    has_status (end_turn e).statuses "slowed" = false ∧
    get_stacks (end_turn e).statuses "burn" = get_stacks e.statuses "burn" ∧
    get_stacks (end_turn e).statuses "poison" = get_stacks e.statuses "poison" := by
  have hdeck := end_turn_deck e
  have hst : (end_turn e).statuses =
      pop_status (pop_status e.statuses "paralyzed") "slowed" := by
    by_cases hh : e.deck_state.hand.isEmpty <;> simp [end_turn, on_turn_end, hh]
  have hframe : (end_turn e).hp_current = e.hp_current ∧
      (end_turn e).guard_current = e.guard_current ∧
      (end_turn e).armor_current = e.armor_current ∧
      (end_turn e).magic_armor_current = e.magic_armor_current := by
    by_cases hh : e.deck_state.hand.isEmpty <;> simp [end_turn, on_turn_end, hh]
  refine ⟨?_, ?_, ?_, hframe.1, hframe.2.1, hframe.2.2.1, hframe.2.2.2, hst, ?_, ?_, ?_, ?_⟩
  · rw [hdeck]
    by_cases hh : e.deck_state.hand.isEmpty
    · simp only [hh, if_true]
      exact List.isEmpty_iff.mp hh
    · simp [hh]
  · rw [hdeck]
    by_cases hh : e.deck_state.hand.isEmpty
    · simp [hh, List.isEmpty_iff.mp hh]
    · simp [hh]
  · rw [hdeck]
    by_cases hh : e.deck_state.hand.isEmpty <;> simp [hh]
  · rw [hst, has_status_pop_ne _ _ _ (by decide), has_status_pop_self]
  · rw [hst, has_status_pop_self]
  · rw [hst, get_stacks_pop_ne _ _ _ (by decide), get_stacks_pop_ne _ _ _ (by decide)]
  · rw [hst, get_stacks_pop_ne _ _ _ (by decide), get_stacks_pop_ne _ _ _ (by decide)]

/-- C10: serializing a combatant to the persisted-state record and
restoring it reproduces the combatant, every field equal (identity,
vitals, guard, draws, movement, deck zones, statuses, last-drawn list,
loot cache and flag). -/
theorem spec_C10 (e : EnemyInstance) : enemy_from_dict (enemy_to_dict e) = e := rfl

/-- C6: enemy_turn first runs on_turn_start; if hp_current is then ≤ 0 it
returns the empty draw result with every deck zone untouched, otherwise
it delegates to the deck engine with a request of
max(0, draws_base − (1 if paralyzed else 0)) cards. -/
theorem spec_C6 (e : EnemyInstance) (rnd : Rng) :
    ((on_turn_start e).1.hp_current ≤ 0 →
      enemy_turn e rnd =
        ((on_turn_start e).1, rnd, Except.ok (empty_draw_result (on_turn_start e).1)) ∧
      (on_turn_start e).1.deck_state = e.deck_state ∧
      (empty_draw_result (on_turn_start e).1).drawn = [] ∧
      (empty_draw_result (on_turn_start e).1).requested = 0) ∧
    (0 < (on_turn_start e).1.hp_current →
      enemy_turn e rnd =
        draw_cards (on_turn_start e).1
          (max 0 (e.draws_base - (if has_status e.statuses "paralyzed" then 1 else 0)))
          rnd) := by
  constructor
  · intro h
    refine ⟨?_, rfl, rfl, rfl⟩
    simp only [enemy_turn]
    rw [if_pos h]
  · intro h
    simp only [enemy_turn]
    rw [if_neg (not_le.mpr h)]
    have hdb : (on_turn_start e).1.draws_base = e.draws_base := rfl
    have hst : (on_turn_start e).1.statuses = e.statuses := rfl
    rw [hdb, hst]
    have harg :
        (if e.draws_base - (if has_status e.statuses "paralyzed" then 1 else 0) < 0 then 0
         else e.draws_base - (if has_status e.statuses "paralyzed" then 1 else 0)) =
        max 0 (e.draws_base - (if has_status e.statuses "paralyzed" then 1 else 0)) := by
      split_ifs with h1 <;> omega
    rw [harg]

/-- C6 witness: the dead branch on a concrete downed combatant and the
draw branch on a concrete live one. -/
theorem spec_C6_witness :
    ((on_turn_start dead_enemy).1.hp_current ≤ 0 ∧
      enemy_turn dead_enemy [] =
        ((on_turn_start dead_enemy).1, [],
         Except.ok (empty_draw_result (on_turn_start dead_enemy).1))) ∧
    (0 < (on_turn_start base_enemy).1.hp_current ∧
      enemy_turn base_enemy [] =
        draw_cards (on_turn_start base_enemy).1
          (max 0 (base_enemy.draws_base -
            (if has_status base_enemy.statuses "paralyzed" then 1 else 0)))
          []) :=
  ⟨⟨by decide, ((spec_C6 dead_enemy []).1 (by decide)).1⟩,
   ⟨by decide, (spec_C6 base_enemy []).2 (by decide)⟩⟩

/-- C3: the §3 bounds (0 ≤ hp ≤ hp_max, 0 ≤ armor ≤ armor_max,
0 ≤ magic armor ≤ magic_armor_max, 0 ≤ guard) are preserved by any
finite sequence of successful apply_attack / apply_heal calls with
non-negative arguments and arbitrary modifier sets. -/
theorem spec_C3 (e : EnemyInstance) (ops : List CoreOp)
    (hwf : wf_combatant e) (_hvalid : ops.all valid_opb = true) :
    wf_combatant (run_ops e ops) :=
  run_ops_wf e ops hwf

/-- C3 witness: a concrete attack/heal/attack sequence on the example
combatant keeps the bounds. -/
theorem spec_C3_witness :
    wf_combatant example_g3a2 ∧
    ([CoreOp.attack 4 ["stab"], CoreOp.heal 2 1 0 5,
      CoreOp.attack 0 ["sunder", "paralyse"]].all valid_opb = true) ∧
    wf_combatant (run_ops example_g3a2
      [CoreOp.attack 4 ["stab"], CoreOp.heal 2 1 0 5,
       CoreOp.attack 0 ["sunder", "paralyse"]]) :=
  ⟨by decide, by decide,
   spec_C3 example_g3a2
     [CoreOp.attack 4 ["stab"], CoreOp.heal 2 1 0 5,
      CoreOp.attack 0 ["sunder", "paralyse"]]
     (by decide) (by decide)⟩

/-- C4: the multiset of card ids over draw pile + discard pile + hand
(and hence the summed zone length) is unchanged by every draw_cards call
with n ≥ 0 — reshuffles included — and by every end_turn call. -/
theorem spec_C4 :
    (∀ (e : EnemyInstance) (n : Int) (rnd : Rng), 0 ≤ n →
      zones_ms (draw_cards e n rnd).1.deck_state = zones_ms e.deck_state) ∧
    (∀ (e : EnemyInstance), zones_ms (end_turn e).deck_state = zones_ms e.deck_state) ∧
    (∀ (e : EnemyInstance) (n : Int) (rnd : Rng), 0 ≤ n →
      (draw_cards e n rnd).1.deck_state.draw_pile.length +
        (draw_cards e n rnd).1.deck_state.discard_pile.length +
        (draw_cards e n rnd).1.deck_state.hand.length =
      e.deck_state.draw_pile.length + e.deck_state.discard_pile.length +
        e.deck_state.hand.length) := by
  have hcard : ∀ ds1 ds2 : DeckState, zones_ms ds1 = zones_ms ds2 →
      ds1.draw_pile.length + ds1.discard_pile.length + ds1.hand.length =
        ds2.draw_pile.length + ds2.discard_pile.length + ds2.hand.length := by
    intro ds1 ds2 hz
    have h2 := congrArg Multiset.card hz
    simp only [zones_ms, Multiset.card_add, Multiset.coe_card] at h2
    omega
  refine ⟨?_, ?_, ?_⟩
  · intro e n rnd hn
    exact zones_draw_cards e n rnd hn
  · intro e
    exact zones_end_turn e
  · intro e n rnd hn
    exact hcard _ _ (zones_draw_cards e n rnd hn)

/-- C4 witness: conservation on a concrete reshuffling 3-card draw and a
concrete end_turn. -/
theorem spec_C4_witness :
    (0 : Int) ≤ 3 ∧
    zones_ms (draw_cards reshuffle_enemy 3 [1, 0]).1.deck_state =
      zones_ms reshuffle_enemy.deck_state ∧
    zones_ms (end_turn reshuffle_enemy).deck_state = zones_ms reshuffle_enemy.deck_state ∧
    (draw_cards reshuffle_enemy 3 [1, 0]).1.deck_state.draw_pile.length +
      (draw_cards reshuffle_enemy 3 [1, 0]).1.deck_state.discard_pile.length +
      (draw_cards reshuffle_enemy 3 [1, 0]).1.deck_state.hand.length =
    reshuffle_enemy.deck_state.draw_pile.length +
      reshuffle_enemy.deck_state.discard_pile.length +
      reshuffle_enemy.deck_state.hand.length :=
  ⟨by decide, spec_C4.1 reshuffle_enemy 3 [1, 0] (by decide),
   spec_C4.2.1 reshuffle_enemy,
   spec_C4.2.2 reshuffle_enemy 3 [1, 0] (by decide)⟩

theorem attack_armor_proj (e : EnemyInstance) (d : Int) (mods : List String)
    (hd : 0 ≤ d) :
    (apply_attack e d mods).1.armor_current = armor_after_sunder e mods := by
  rw [attack_ok_eq e d mods hd]

theorem attack_guard_proj (e : EnemyInstance) (d : Int) (mods : List String)
    (hd : 0 ≤ d) :
    (apply_attack e d mods).1.guard_current =
      max 0 (e.guard_current - guard_used_of e d mods) := by
  rw [attack_ok_eq e d mods hd]

theorem attack_magic_proj (e : EnemyInstance) (d : Int) (mods : List String)
    (hd : 0 ≤ d) :
    (apply_attack e d mods).1.magic_armor_current = e.magic_armor_current := by
  rw [attack_ok_eq e d mods hd]

/-- C2 counterexample: with modifier set {pierce, sunder} the armor stock
is *not* left unchanged although pierce is present — sunder's step-1
destruction still applies (armor 2 drops to 1 on a damage-0 attack), so
the claim's unconditional "leaving the guard_current and armor_current
stock unchanged afterwards" fails as stated. -/
theorem spec_C2_counterexample :
    "pierce" ∈ (["pierce", "sunder"] : List String) ∧
    (apply_attack example_a2 0 ["pierce", "sunder"]).1.armor_current ≠
      example_a2.armor_current := by
  decide

/-- C2 (amended): pierce bypasses the whole combined guard+armor regular
reduction and leaves guard_current unchanged and — when sunder is absent
— armor_current unchanged (with sunder, armor drops only by sunder's
step-1 point); otherwise stab bypasses exactly 1 point of regular
reduction taken from guard first, then armor; magic_pierce bypasses all
magic-armor reduction; bypassed amounts are never destroyed (armor stock
changes only by sunder, guard stock retains at least its bypassed part);
damage=5 with stab against guard=3, armor=2 yields damage_to_hp = 1. -/
theorem spec_C2 (e : EnemyInstance) (d : Int) (mods : List String)
    (hwf : wf_combatant e) (hd : 0 ≤ d) :
    ("pierce" ∈ mods →
      effective_guard e mods = 0 ∧ effective_armor e mods = 0 ∧
      (apply_attack e d mods).1.guard_current = e.guard_current ∧
      ("sunder" ∉ mods → (apply_attack e d mods).1.armor_current = e.armor_current)) ∧
    ("pierce" ∉ mods → "stab" ∈ mods →
      ignored_regular_of e mods = 1 ∧
      effective_guard e mods = max 0 (e.guard_current - 1) ∧
      effective_guard e mods + effective_armor e mods =
        max 0 (e.guard_current + armor_after_sunder e mods - 1)) ∧
    ("magic_pierce" ∈ mods →
      effective_magic e mods = 0 ∧
      (apply_attack e d mods).1.magic_armor_current = e.magic_armor_current) ∧
    ((apply_attack e d mods).1.armor_current = armor_after_sunder e mods ∧
      e.guard_current - effective_guard e mods ≤ (apply_attack e d mods).1.guard_current) ∧
    (∃ log : CombatLog,
      (apply_attack example_g3a2 5 ["stab"]).2 = Except.ok log ∧
      log.damage_to_hp = 1) := by
  obtain ⟨h1, h2, h3, h4, h5, h6, h7⟩ := hwf
  have haS : 0 ≤ armor_after_sunder e mods := by
    simp only [armor_after_sunder]
    split <;> omega
  have hdaf : 0 ≤ damage_after_fixed_of e d mods := by
    simp only [damage_after_fixed_of]
    omega
  refine ⟨?_, ?_, ?_, ⟨attack_armor_proj e d mods hd, ?_⟩, ?_⟩
  · intro hp
    have hig : ignored_regular_of e mods = e.guard_current + armor_after_sunder e mods := by
      simp only [ignored_regular_of, hp, if_true]
    have hg : effective_guard e mods = 0 := by
      simp only [effective_guard, hig]
      omega
    have ha : effective_armor e mods = 0 := by
      simp only [effective_armor, hig]
      omega
    refine ⟨hg, ha, ?_, ?_⟩
    · rw [attack_guard_proj e d mods hd]
      have hgu : guard_used_of e d mods = 0 := by
        simp only [guard_used_of, hg]
        omega
      rw [hgu]
      omega
    · intro hns
      rw [attack_armor_proj e d mods hd]
      simp only [armor_after_sunder, hns, false_and, if_false]
  · intro hnp hs
    have hig : ignored_regular_of e mods = 1 := by
      simp only [ignored_regular_of, hnp, hs, if_false, if_true]
    refine ⟨hig, ?_, ?_⟩
    · simp only [effective_guard, hig]
      omega
    · simp only [effective_guard, effective_armor, hig]
      omega
  · intro hmp
    have hm : effective_magic e mods = 0 := by
      simp only [effective_magic, ignored_magic_of, hmp, if_true]
      omega
    exact ⟨hm, attack_magic_proj e d mods hd⟩
  · rw [attack_guard_proj e d mods hd]
    have hgu : guard_used_of e d mods ≤ effective_guard e mods := by
      simp only [guard_used_of]
      omega
    omega
  · exact ⟨attack_log example_g3a2 5 ["stab"], rfl, by decide⟩

/-- C2 witness: the amended theorem instantiated at the spec's stab
example (damage 5, mods ["stab"], guard 3, armor 2). -/
theorem spec_C2_witness :
    (wf_combatant example_g3a2 ∧ (0 : Int) ≤ 5) ∧
    (("pierce" ∈ (["stab"] : List String) →
      effective_guard example_g3a2 ["stab"] = 0 ∧
      effective_armor example_g3a2 ["stab"] = 0 ∧
      (apply_attack example_g3a2 5 ["stab"]).1.guard_current = example_g3a2.guard_current ∧
      ("sunder" ∉ (["stab"] : List String) →
        (apply_attack example_g3a2 5 ["stab"]).1.armor_current =
          example_g3a2.armor_current)) ∧
    ("pierce" ∉ (["stab"] : List String) → "stab" ∈ (["stab"] : List String) →
      ignored_regular_of example_g3a2 ["stab"] = 1 ∧
      effective_guard example_g3a2 ["stab"] = max 0 (example_g3a2.guard_current - 1) ∧
      effective_guard example_g3a2 ["stab"] + effective_armor example_g3a2 ["stab"] =
        max 0 (example_g3a2.guard_current + armor_after_sunder example_g3a2 ["stab"] - 1)) ∧
    ("magic_pierce" ∈ (["stab"] : List String) →
      effective_magic example_g3a2 ["stab"] = 0 ∧
      (apply_attack example_g3a2 5 ["stab"]).1.magic_armor_current =
        example_g3a2.magic_armor_current) ∧
    ((apply_attack example_g3a2 5 ["stab"]).1.armor_current =
        armor_after_sunder example_g3a2 ["stab"] ∧
      example_g3a2.guard_current - effective_guard example_g3a2 ["stab"] ≤
        (apply_attack example_g3a2 5 ["stab"]).1.guard_current) ∧
    (∃ log : CombatLog,
      (apply_attack example_g3a2 5 ["stab"]).2 = Except.ok log ∧
      log.damage_to_hp = 1)) :=
  ⟨⟨by decide, by decide⟩,
   spec_C2 example_g3a2 5 ["stab"] (by decide) (by decide)⟩

theorem mem_filter_ne_iff (mods : List String) (t k : String) (h : t ≠ k) :
    (t ∈ mods.filter (fun m => m != k)) ↔ t ∈ mods := by
  simp [List.mem_filter, h]

theorem not_mem_filter_self (mods : List String) (k : String) :
    k ∉ mods.filter (fun m => m != k) := by
  simp [List.mem_filter]

/-- C7: with sunder present, apply_attack first decrements armor by
exactly 1 when positive (leaving 0 at 0, without error), and then
behaves exactly as the same attack without the sunder modifier against
the pre-decremented armor — so the destroyed point cannot mitigate this
attack, and sunder itself touches neither guard_current nor
magic_armor_current. -/
theorem spec_C7 (e : EnemyInstance) (d : Int) (mods : List String)
    (hd : 0 ≤ d) (hs : "sunder" ∈ mods) :
    (apply_attack e d mods).1 =
      (apply_attack
        { e with armor_current :=
            if 0 < e.armor_current then e.armor_current - 1 else e.armor_current }
        d (mods.filter (fun m => m != "sunder"))).1 ∧
    (apply_attack e d mods).1.armor_current =
      (if 0 < e.armor_current then e.armor_current - 1 else e.armor_current) ∧
    (e.armor_current = 0 → (apply_attack e d mods).1.armor_current = 0) ∧
    (apply_attack e d mods).1.magic_armor_current = e.magic_armor_current := by
  have hA : armor_after_sunder e mods =
      (if 0 < e.armor_current then e.armor_current - 1 else e.armor_current) := by
    simp only [armor_after_sunder, hs, true_and]
  have hA2 : armor_after_sunder
      { e with armor_current :=
          if 0 < e.armor_current then e.armor_current - 1 else e.armor_current }
      (mods.filter (fun m => m != "sunder")) = armor_after_sunder e mods := by
    simp only [armor_after_sunder, hs, true_and]
    rw [if_neg]
    intro hcon
    exact not_mem_filter_self mods "sunder" hcon.1
  have hIR : ignored_regular_of
      { e with armor_current :=
          if 0 < e.armor_current then e.armor_current - 1 else e.armor_current }
      (mods.filter (fun m => m != "sunder")) = ignored_regular_of e mods := by
    simp only [ignored_regular_of, hA2,
      mem_filter_ne_iff mods "pierce" "sunder" (by decide),
      mem_filter_ne_iff mods "stab" "sunder" (by decide)]
  have hEG : effective_guard
      { e with armor_current :=
          if 0 < e.armor_current then e.armor_current - 1 else e.armor_current }
      (mods.filter (fun m => m != "sunder")) = effective_guard e mods := by
    simp only [effective_guard, hIR]
  have hEA : effective_armor
      { e with armor_current :=
          if 0 < e.armor_current then e.armor_current - 1 else e.armor_current }
      (mods.filter (fun m => m != "sunder")) = effective_armor e mods := by
    simp only [effective_armor, hIR, hA2]
  have hEM : effective_magic
      { e with armor_current :=
          if 0 < e.armor_current then e.armor_current - 1 else e.armor_current }
      (mods.filter (fun m => m != "sunder")) = effective_magic e mods := by
    simp only [effective_magic, ignored_magic_of,
      mem_filter_ne_iff mods "magic_pierce" "sunder" (by decide)]
  have hDAF : damage_after_fixed_of
      { e with armor_current :=
          if 0 < e.armor_current then e.armor_current - 1 else e.armor_current }
      d (mods.filter (fun m => m != "sunder")) = damage_after_fixed_of e d mods := by
    simp only [damage_after_fixed_of, hEA, hEM]
  have hGU : guard_used_of
      { e with armor_current :=
          if 0 < e.armor_current then e.armor_current - 1 else e.armor_current }
      d (mods.filter (fun m => m != "sunder")) = guard_used_of e d mods := by
    simp only [guard_used_of, hEG, hDAF]
  have hDTH : damage_to_hp_of
      { e with armor_current :=
          if 0 < e.armor_current then e.armor_current - 1 else e.armor_current }
      d (mods.filter (fun m => m != "sunder")) = damage_to_hp_of e d mods := by
    simp only [damage_to_hp_of, hDAF, hGU]
  refine ⟨?_, ?_, ?_, attack_magic_proj e d mods hd⟩
  · rw [attack_ok_eq e d mods hd, attack_ok_eq _ d _ hd]
    simp only [EnemyInstance.mk.injEq, hDTH, hGU, hA2,
      mem_filter_ne_iff mods "paralyse" "sunder" (by decide)]
  · rw [attack_armor_proj e d mods hd, hA]
  · intro h0
    rw [attack_armor_proj e d mods hd, hA, h0]
    simp

/-- C7 witness: the spec's sunder example (damage 1 with ["sunder"]
against armor 2, guard 0). -/
theorem spec_C7_witness :
    ((0 : Int) ≤ 1 ∧ "sunder" ∈ (["sunder"] : List String)) ∧
    ((apply_attack example_a2 1 ["sunder"]).1 =
      (apply_attack
        { example_a2 with armor_current :=
            if 0 < example_a2.armor_current then example_a2.armor_current - 1
            else example_a2.armor_current }
        1 ((["sunder"] : List String).filter (fun m => m != "sunder"))).1 ∧
    (apply_attack example_a2 1 ["sunder"]).1.armor_current =
      (if 0 < example_a2.armor_current then example_a2.armor_current - 1
       else example_a2.armor_current) ∧
    (example_a2.armor_current = 0 →
      (apply_attack example_a2 1 ["sunder"]).1.armor_current = 0) ∧
    (apply_attack example_a2 1 ["sunder"]).1.magic_armor_current =
      example_a2.magic_armor_current) :=
  ⟨⟨by decide, by decide⟩,
   spec_C7 example_a2 1 ["sunder"] (by decide) (by decide)⟩
